import Mathlib

/-!
Verification of the VibeWeave core (aura-stream-platform): a shallow
embedding of `VibeStore.ts`, `VibeProcessor.ts` (src/unnamed/part_002),
`colorUtils.ts` and the `auraRoutes` handlers (src/unnamed/part_000),
with theorems settling the specification claims.

Modelling conventions:
* JavaScript numbers are modelled as `ℚ` (timestamps in milliseconds,
  scores, intensities, volumes, decay rates).  `Math.round(x)` on the
  non-negative quantities used here is `⌊x + 1/2⌋` and `Math.floor` is
  `Int.floor`.
* `Math.random()`-driven choices are injected as explicit parameters:
  an index pick `i` stands for `Math.floor(Math.random() * len)` and is
  reduced modulo the list length (the source value is always in range),
  interpolation factors are passed as rationals.
* The `Map<string, Vibe>` store is a list of Vibes in insertion order;
  `Map.set` replaces in place when the key exists (ids are the keys and
  every stored Vibe sits under its own id, which `saveVibe` guarantees).
* `Array.prototype.sort` with the comparator
  `(a, b) => b.resonanceScore - a.resonanceScore` is a stable sort by
  descending score, modelled with `List.insertionSort`; the
  random-comparator shuffle of the personal stream is an arbitrary
  permutation-producing function passed as a parameter.
-/

/-- the `animationType` union of `Vibe.visual` from types/Vibe.ts. -/
inductive AnimationType
  | pulse | flow | sparkle | wave | static
deriving DecidableEq

/-- the `pattern` union of `Vibe.haptic` from types/Vibe.ts. -/
inductive HapticPattern
  | short_buzz | long_pulse | gentle_throb | random
deriving DecidableEq

/-- the `fontStyle` union of `Vibe.text` from types/Vibe.ts. -/
inductive FontStyle
  | serif | sans_serif | monospace
deriving DecidableEq

/-- The `visual` payload of `Vibe`, from types/Vibe.ts. -/
structure VisualPayload where
  palette : List String
  animationType : AnimationType
  intensity : ℚ
deriving DecidableEq

/-- The `audio` payload of `Vibe`, from types/Vibe.ts. -/
structure AudioPayload where
  loopUrl : String
  volume : ℚ
  pitchShift : Option ℚ
deriving DecidableEq

/-- The `haptic` payload of `Vibe`, from types/Vibe.ts. -/
structure HapticPayload where
  pattern : HapticPattern
  intensity : ℚ
deriving DecidableEq

/-- The `text` payload of `Vibe`, from types/Vibe.ts. -/
structure TextPayload where
  content : String
  fontStyle : FontStyle
  color : String
deriving DecidableEq

/-- The `_internal` metadata of `Vibe`, from types/Vibe.ts (with the `lastResonatedAt`
field the processor reads and writes). -/
structure VibeInternal where
  parentVibeIds : List String
  resonanceScore : ℚ
  generation : ℕ
  lastResonatedAt : ℚ
deriving DecidableEq

/-- The `Vibe` entity from types/Vibe.ts. -/
structure Vibe where
  id : String
  createdAt : ℚ
  expiresAt : ℚ
  visual : VisualPayload
  audio : AudioPayload
  haptic : Option HapticPayload
  text : Option TextPayload
  _internal : VibeInternal
deriving DecidableEq

/-- The `Map<string, Vibe>` of `VibeStore`, as its entries in insertion
order. -/
abbrev VibeStore : Type := List Vibe

namespace VibeStore

/-- `VibeStore.saveVibe`: `this.vibes.set(vibe.id, vibe)` — replaces the
entry under the same key in place, else appends. -/
def saveVibe (s : VibeStore) (v : Vibe) : VibeStore :=
  if (s : List Vibe).any (fun w => w.id == v.id) then
    (s : List Vibe).map (fun w => if w.id == v.id then v else w)
  else (s : List Vibe) ++ [v]

/-- `VibeStore.getVibe`: `this.vibes.get(id)` — no expiry check. -/
def getVibe (s : VibeStore) (id : String) : Option Vibe :=
  (s : List Vibe).find? (fun w => w.id == id)

/-- `VibeStore.getVibesByIds`:
`ids.map(id => this.vibes.get(id)).filter(Boolean)`. -/
def getVibesByIds (s : VibeStore) (ids : List String) : List Vibe :=
  ids.filterMap (getVibe s)

/-- `VibeStore.getAllActiveVibes`: all entries with `expiresAt > now`. -/
def getAllActiveVibes (s : VibeStore) (now : ℚ) : List Vibe :=
  (s : List Vibe).filter (fun v => decide (now < v.expiresAt))

/-- `VibeStore.deleteVibe`. -/
def deleteVibe (s : VibeStore) (id : String) : VibeStore :=
  (s : List Vibe).filter (fun v => !(v.id == id))

/-- `VibeStore.deleteExpiredVibes`: removes every entry with
`expiresAt <= now`. -/
def deleteExpiredVibes (s : VibeStore) (now : ℚ) : VibeStore :=
  (s : List Vibe).filter (fun v => decide (now < v.expiresAt))

/-- `VibeStore.clear`. -/
def clear (_s : VibeStore) : VibeStore := ([] : List Vibe)

end VibeStore

/-! ## colorUtils.ts -/

/-- A character matched by the `[a-f\d]` class of the hex regexes
(case-insensitive). -/
def isHexDigit (c : Char) : Bool :=
  ('0' ≤ c && c ≤ '9') || ('a' ≤ c && c ≤ 'f') || ('A' ≤ c && c ≤ 'F')

/-- Value of one hex digit, as `parseInt(_, 16)` reads it. -/
def hexDigitVal (c : Char) : ℕ :=
  if '0' ≤ c && c ≤ '9' then c.toNat - '0'.toNat
  else if 'a' ≤ c && c ≤ 'f' then c.toNat - 'a'.toNat + 10
  else c.toNat - 'A'.toNat + 10

/-- The shorthand expansion step of `hexToRgb`: the regex
`^#?([a-f\d])([a-f\d])([a-f\d])$` replaces the whole match (including
the optional `#`) by the doubled digits. -/
def hexShorthandExpand (cs : List Char) : List Char :=
  match cs with
  | ['#', r, g, b] =>
      if isHexDigit r && isHexDigit g && isHexDigit b then [r, r, g, g, b, b] else cs
  | [r, g, b] =>
      if isHexDigit r && isHexDigit g && isHexDigit b then [r, r, g, g, b, b] else cs
  | _ => cs

/-- `hexToRgb` from colorUtils.ts: shorthand expansion, then the
`^#?([a-f\d]{2})([a-f\d]{2})([a-f\d]{2})$` match with `parseInt(_, 16)`
per component. -/
def hexToRgb (hex : String) : Option (ℕ × ℕ × ℕ) :=
  let cs := hexShorthandExpand hex.data
  let body := match cs with
    | '#' :: rest => rest
    | rest => rest
  match body with
  | [r1, r2, g1, g2, b1, b2] =>
      if isHexDigit r1 && isHexDigit r2 && isHexDigit g1 && isHexDigit g2 &&
         isHexDigit b1 && isHexDigit b2 then
        some (16 * hexDigitVal r1 + hexDigitVal r2,
              16 * hexDigitVal g1 + hexDigitVal g2,
              16 * hexDigitVal b1 + hexDigitVal b2)
      else none
  | _ => none

/-- `rgbToHex` from colorUtils.ts:
`"#" + ((1 << 24) + (r << 16) + (g << 8) + b).toString(16).slice(1).toUpperCase()`.
On the in-range components produced by the blender the shifted sum is
`2^24 + r*2^16 + g*2^8 + b`. -/
def rgbToHex (r g b : ℕ) : String :=
  "#" ++ String.mk (((Nat.toDigits 16 (2 ^ 24 + r * 2 ^ 16 + g * 2 ^ 8 + b)).drop 1).map
    Char.toUpper)

/-- `Math.round` on the non-negative rationals this code feeds it:
round half up. -/
def jsRound (x : ℚ) : ℤ := ⌊x + 1 / 2⌋

/-- `interpolateRgb` from colorUtils.ts:
`Math.round(color1[i] + factor * (color2[i] - color1[i]))` per component. -/
def interpolateRgb (c1 c2 : ℕ × ℕ × ℕ) (factor : ℚ) : ℤ × ℤ × ℤ :=
  (jsRound ((c1.1 : ℚ) + factor * ((c2.1 : ℚ) - (c1.1 : ℚ))),
   jsRound ((c1.2.1 : ℚ) + factor * ((c2.2.1 : ℚ) - (c1.2.1 : ℚ))),
   jsRound ((c1.2.2 : ℚ) + factor * ((c2.2.2 : ℚ) - (c1.2.2 : ℚ))))

/-- `Array.from(new Set(xs))`: deduplication keeping the first
occurrence of each element, in order. -/
def jsSetDedup {α : Type} [DecidableEq α] : List α → List α
  | [] => []
  | a :: l => a :: jsSetDedup (l.filter (fun b => decide (b ≠ a)))
termination_by l => l.length
decreasing_by
  simp only [List.length_cons]
  exact Nat.lt_succ_of_le (List.length_filter_le _ _)

/-- A `Math.floor(Math.random() * l.length)` index pick: the injected
choice `i` reduced into range. -/
def jsPick {α : Type} (l : List α) (d : α) (i : ℕ) : α :=
  l.getD (i % l.length) d

/-- The randomness of one loop iteration in `blendHexPalettes`: the two
pair indices and the interpolation factor. -/
structure InterpPick where
  idx1 : ℕ
  idx2 : ℕ
  factor : ℚ

/-- `blendHexPalettes` from colorUtils.ts.  `picks i` supplies the
randomness of loop iteration `i + 1`; the source re-rolls `idx2` until
it differs from `idx1` when more than one color is available, so the
injected `idx2` is taken modulo length and theorems that need
distinctness assume it.  The input pool is **not** deduplicated; the
output is deduplicated and truncated to `numColors`. -/
def blendHexPalettes (hexColors : List String) (numColors : ℕ)
    (picks : ℕ → InterpPick) : List String :=
  if hexColors.length = 0 then []
  else if hexColors.length = 1 then [hexColors.headI]
  else if (hexColors.filterMap hexToRgb).length = 0 then []
  else
    let rgbColors := hexColors.filterMap hexToRgb
    let avgR := jsRound (((rgbColors.map (fun c => (c.1 : ℚ))).sum) / rgbColors.length)
      let avgG := jsRound (((rgbColors.map (fun c => (c.2.1 : ℚ))).sum) / rgbColors.length)
      let avgB := jsRound (((rgbColors.map (fun c => (c.2.2 : ℚ))).sum) / rgbColors.length)
      let base := [rgbToHex avgR.toNat avgG.toNat avgB.toNat]
      let extras := (List.range (numColors - 1)).map (fun i =>
        let p := picks i
        let c1 := jsPick rgbColors (0, 0, 0) p.idx1
        let c2 := jsPick rgbColors (0, 0, 0) p.idx2
        let inter := interpolateRgb c1 c2 p.factor
        rgbToHex inter.1.toNat inter.2.1.toNat inter.2.2.toNat)
      (jsSetDedup (base ++ extras)).take numColors

/-! ## VibeProcessor.ts (src/unnamed/part_002) -/

/-- `VIBE_LIFESPAN_MS = 48 * 60 * 60 * 1000`. -/
def VIBE_LIFESPAN_MS : ℚ := 48 * 60 * 60 * 1000

/-- The `Math.random()` draws of one weave, injected explicitly:
uniform index picks for animation type, loop URL, haptic pattern and
the three independent text fields, plus the picks of the palette loop. -/
structure BlendChoices where
  animIdx : ℕ
  loopIdx : ℕ
  patternIdx : ℕ
  contentIdx : ℕ
  colorIdx : ℕ
  fontIdx : ℕ
  palettePicks : ℕ → InterpPick

namespace VibeProcessor

/-- `VibeProcessor.blendVisuals`. -/
def blendVisuals (visuals : List VisualPayload) (ch : BlendChoices) : VisualPayload :=
  let avgIntensity := ((visuals.map (fun v => v.intensity)).sum) / visuals.length
  let chosenAnimationType :=
    jsPick (visuals.map (fun v => v.animationType)) AnimationType.static ch.animIdx
  let allParentColors := visuals.flatMap (fun v => v.palette)
  let blendedPalette := blendHexPalettes allParentColors 3 ch.palettePicks
  { palette := blendedPalette
    animationType := chosenAnimationType
    intensity := min 100 (max 0 ((jsRound avgIntensity : ℚ))) }

/-- `VibeProcessor.blendAudios` ( `pitchShift || 0` treats a missing
shift as 0). -/
def blendAudios (audios : List AudioPayload) (ch : BlendChoices) : AudioPayload :=
  let avgVolume := ((audios.map (fun a => a.volume)).sum) / audios.length
  let avgPitchShift := ((audios.map (fun a => a.pitchShift.getD 0)).sum) / audios.length
  let chosenLoopUrl := jsPick (audios.map (fun a => a.loopUrl)) "" ch.loopIdx
  { loopUrl := chosenLoopUrl
    volume := min 100 (max 0 ((jsRound avgVolume : ℚ)))
    pitchShift := some avgPitchShift }

/-- `VibeProcessor.blendHaptics`. -/
def blendHaptics (haptics : List HapticPayload) (ch : BlendChoices) : Option HapticPayload :=
  if haptics.length = 0 then none
  else
    let avgIntensity := ((haptics.map (fun h => h.intensity)).sum) / haptics.length
    let chosenPattern :=
      jsPick (haptics.map (fun h => h.pattern)) HapticPattern.random ch.patternIdx
    some { pattern := chosenPattern
           intensity := min 100 (max 0 ((jsRound avgIntensity : ℚ))) }

/-- `VibeProcessor.blendTexts`: the three fields are chosen
independently. -/
def blendTexts (texts : List TextPayload) (ch : BlendChoices) : Option TextPayload :=
  if texts.length = 0 then none
  else
    let chosenContent := jsPick (texts.map (fun t => t.content)) "" ch.contentIdx
    let blendedColor := jsPick (texts.map (fun t => t.color)) "" ch.colorIdx
    let chosenFontStyle :=
      jsPick (texts.map (fun t => t.fontStyle)) FontStyle.serif ch.fontIdx
    some { content := chosenContent
           fontStyle := chosenFontStyle
           color := blendedColor }

/-- `VibeProcessor.createNewVibe`: builds the root Vibe and saves it.
Returns the new Vibe with the updated store. -/
def createNewVibe (s : VibeStore) (now : ℚ) (newId : String)
    (visualParams : VisualPayload) (audioParams : AudioPayload)
    (hapticParams : Option HapticPayload) (textParams : Option TextPayload) :
    Vibe × VibeStore :=
  let newVibe : Vibe :=
    { id := newId
      createdAt := now
      expiresAt := now + VIBE_LIFESPAN_MS
      visual := visualParams
      audio := audioParams
      haptic := hapticParams
      text := textParams
      _internal :=
        { parentVibeIds := []
          resonanceScore := 0
          generation := 0
          lastResonatedAt := now } }
  (newVibe, s.saveVibe newVibe)

/-- `Math.max(...xs)` over the (non-negative) parent generations. -/
def listMax (l : List ℕ) : ℕ := l.foldr max 0

/-- The `newVibe` assembled in the success path of
`VibeProcessor.weaveVibes` (factored out for reuse in theorems). -/
def wovenVibe (s : VibeStore) (parentVibeIds : List String) (now : ℚ)
    (newId : String) (ch : BlendChoices) : Vibe :=
  let parentVibes := s.getVibesByIds parentVibeIds
  { id := newId
    createdAt := now
    expiresAt := now + VIBE_LIFESPAN_MS
    visual := blendVisuals (parentVibes.map (fun v => v.visual)) ch
    audio := blendAudios (parentVibes.map (fun v => v.audio)) ch
    haptic := blendHaptics (parentVibes.filterMap (fun v => v.haptic)) ch
    text := blendTexts (parentVibes.filterMap (fun v => v.text)) ch
    _internal :=
      { parentVibeIds := parentVibes.map (fun v => v.id)
        resonanceScore := 0
        generation := listMax (parentVibes.map (fun v => v._internal.generation)) + 1
        lastResonatedAt := now } }

/-- `VibeProcessor.weaveVibes`: rejects a parent count outside 1..3,
then requires every id to resolve through `getVibesByIds` (which skips
missing keys, so a length mismatch means an unresolved id), blends the
sensory channels and saves the new Vibe.  On failure returns `none`
and the untouched store. -/
def weaveVibes (s : VibeStore) (parentVibeIds : List String) (now : ℚ)
    (newId : String) (ch : BlendChoices) : Option Vibe × VibeStore :=
  if parentVibeIds.length = 0 ∨ 3 < parentVibeIds.length then (none, s)
  else if (s.getVibesByIds parentVibeIds).length ≠ parentVibeIds.length then (none, s)
  else
    (some (wovenVibe s parentVibeIds now newId ch),
     s.saveVibe (wovenVibe s parentVibeIds now newId ch))

/-- `VibeProcessor.resonateWithVibe`: fetches through
`VibeStore.getVibe` (no expiry check), increments the score, refreshes
`lastResonatedAt` and saves. -/
def resonateWithVibe (s : VibeStore) (vibeId : String) (now : ℚ) :
    Option Vibe × VibeStore :=
  match s.getVibe vibeId with
  | none => (none, s)
  | some vibe =>
      let vibe' : Vibe :=
        { vibe with _internal :=
            { vibe._internal with
                resonanceScore := vibe._internal.resonanceScore + 1
                lastResonatedAt := now } }
      (some vibe', s.saveVibe vibe')

/-- The per-Vibe body of `VibeProcessor.decayVibeResonance`. -/
def decayVibe (decayRate : ℚ) (now : ℚ) (vibe : Vibe) : Vibe :=
  if 1 < (now - vibe._internal.lastResonatedAt) / (1000 * 60 * 60) then
    { vibe with _internal :=
        { vibe._internal with
            resonanceScore := max 0 (vibe._internal.resonanceScore -
              vibe._internal.resonanceScore * decayRate *
                ((now - vibe._internal.lastResonatedAt) / (1000 * 60 * 60))) } }
  else vibe

/-- `VibeProcessor.decayVibeResonance`: updates every active Vibe in
place (each updated Vibe is saved back under its unchanged id). -/
def decayVibeResonance (s : VibeStore) (decayRate : ℚ) (now : ℚ) : VibeStore :=
  (s : List Vibe).map (fun vibe =>
    if now < vibe.expiresAt then decayVibe decayRate now vibe else vibe)

/-- The `type` union of `Stream` from types/Stream.ts. -/
inductive StreamType
  | personal | collective
deriving DecidableEq

/-- Descending order on `_internal.resonanceScore`, the comparator
`(a, b) => b._internal.resonanceScore - a._internal.resonanceScore`. -/
def scoreGe (a b : Vibe) : Prop :=
  b._internal.resonanceScore ≤ a._internal.resonanceScore

instance : DecidableRel scoreGe := fun a b =>
  inferInstanceAs (Decidable (b._internal.resonanceScore ≤ a._internal.resonanceScore))

instance : IsTotal Vibe scoreGe :=
  ⟨fun a b => le_total b._internal.resonanceScore a._internal.resonanceScore⟩

instance : IsTrans Vibe scoreGe :=
  ⟨fun _ _ _ h1 h2 => le_trans h2 h1⟩

/-- `VibeProcessor.getStreamVibes`.  `shuffle` stands for the
random-comparator `sort(() => 0.5 - Math.random())` of the discovery
set; theorems assume it permutes its input.  `Math.floor(limit * 0.7)`
is taken over exact rationals. -/
def getStreamVibes (s : VibeStore) (now : ℚ) (streamType : StreamType)
    (_associatedId : String) (limit : ℕ) (shuffle : List Vibe → List Vibe) :
    List String :=
  let allActiveVibes := s.getAllActiveVibes now
  match streamType with
  | StreamType.personal =>
      let sorted := List.insertionSort scoreGe allActiveVibes
      let highlyResonated := sorted.take (⌊(limit : ℚ) * (7 / 10)⌋).toNat
      let randomVibes :=
        (shuffle (sorted.filter (fun v => !(highlyResonated.contains v)))).take
          (limit - highlyResonated.length)
      jsSetDedup ((highlyResonated ++ randomVibes).map (fun v => v.id))
  | StreamType.collective =>
      ((List.insertionSort scoreGe allActiveVibes).take limit).map (fun v => v.id)

end VibeProcessor

/-! ## auraRoutes handlers (src/unnamed/part_000, store-backed version) -/

/-- `handleGetVibe` from auraRoutes: 400 when the id is missing/empty,
404 when the store has no entry **or** the entry has expired
(`vibe.expiresAt <= Date.now()`); only then the Vibe is returned.
Failures of either kind are `none`. -/
def handleGetVibe (s : VibeStore) (vibeId : String) (now : ℚ) : Option Vibe :=
  if vibeId = "" then none
  else
    match s.getVibe vibeId with
    | none => none
    | some vibe => if vibe.expiresAt ≤ now then none else some vibe

/-! ## Concrete fixtures -/

/-- A visual payload for concrete instances. -/
def exVisual : VisualPayload :=
  { palette := ["#FFFFFF"], animationType := AnimationType.flow, intensity := 70 }

/-- An audio payload for concrete instances. -/
def exAudio : AudioPayload :=
  { loopUrl := "ambient_chill.mp3", volume := 60, pitchShift := none }

/-- An active root Vibe: created at 0, expires at the 48-hour mark,
resonated three times. -/
def exVibe : Vibe :=
  { id := "a"
    createdAt := 0
    expiresAt := 172800000
    visual := exVisual
    audio := exAudio
    haptic := none
    text := none
    _internal :=
      { parentVibeIds := [], resonanceScore := 3, generation := 0, lastResonatedAt := 0 } }

/-- An expired-but-not-yet-swept Vibe: `expiresAt = 50`, observed at
`now = 100`. -/
def exExpired : Vibe :=
  { id := "a"
    createdAt := 0
    expiresAt := 50
    visual := exVisual
    audio := exAudio
    haptic := none
    text := none
    _internal :=
      { parentVibeIds := [], resonanceScore := 5, generation := 0, lastResonatedAt := 0 } }

/-- A root Vibe whose palette is the single color `"#000000"`. -/
def exBlack1 : Vibe :=
  { id := "b1"
    createdAt := 0
    expiresAt := 172800000
    visual := { palette := ["#000000"], animationType := AnimationType.static, intensity := 50 }
    audio := exAudio
    haptic := none
    text := none
    _internal :=
      { parentVibeIds := [], resonanceScore := 0, generation := 0, lastResonatedAt := 0 } }

/-- A second root Vibe with the same single-color palette. -/
def exBlack2 : Vibe :=
  { exBlack1 with id := "b2" }

/-- Concrete randomness for one weave. -/
def exChoices : BlendChoices :=
  { animIdx := 0, loopIdx := 0, patternIdx := 0, contentIdx := 0, colorIdx := 0,
    fontIdx := 0, palettePicks := fun _ => { idx1 := 0, idx2 := 1, factor := 1 / 2 } }

/-! ## Helper lemmas -/

theorem jsSetDedup_subset {α : Type} [DecidableEq α] (l : List α) :
    ∀ a, a ∈ jsSetDedup l → a ∈ l := by
  induction l using jsSetDedup.induct with
  | case1 => intro a h; rw [jsSetDedup] at h; cases h
  | case2 b l ih =>
      intro a h
      rw [jsSetDedup] at h
      rcases List.mem_cons.mp h with h1 | h1
      · exact h1 ▸ List.mem_cons_self _ _
      · exact List.mem_cons_of_mem _ (List.mem_of_mem_filter (ih a h1))

theorem jsSetDedup_nodup {α : Type} [DecidableEq α] (l : List α) :
    (jsSetDedup l).Nodup := by
  induction l using jsSetDedup.induct with
  | case1 => rw [jsSetDedup]; exact List.nodup_nil
  | case2 b l ih =>
      rw [jsSetDedup]
      refine List.Nodup.cons (fun hmem => ?_) ih
      have := List.of_mem_filter (jsSetDedup_subset _ b hmem)
      simp at this

theorem jsSetDedup_length_le {α : Type} [DecidableEq α] (l : List α) :
    (jsSetDedup l).length ≤ l.length := by
  induction l using jsSetDedup.induct with
  | case1 => rw [jsSetDedup]
  | case2 b l ih =>
      rw [jsSetDedup]
      simp only [List.length_cons]
      exact Nat.succ_le_succ (le_trans ih (List.length_filter_le _ _))

theorem getVibe_id (s : VibeStore) (id : String) (v : Vibe)
    (h : s.getVibe id = some v) : v.id = id := by
  have hp := List.find?_some h
  simpa using hp

theorem getVibe_mem (s : VibeStore) (id : String) (v : Vibe)
    (h : s.getVibe id = some v) : v ∈ s :=
  List.mem_of_find?_eq_some h

theorem length_filterMap_lt {α β : Type} (f : α → Option β) (l : List α)
    (a : α) (ha : a ∈ l) (hf : f a = none) :
    (l.filterMap f).length < l.length := by
  induction l with
  | nil => cases ha
  | cons b l ih =>
      rcases List.mem_cons.mp ha with h1 | h1
      · subst h1
        rw [List.filterMap_cons, hf]
        exact Nat.lt_succ_of_le (List.length_filterMap_le f l)
      · rw [List.filterMap_cons]
        cases hb : f b with
        | none => exact Nat.lt_succ_of_lt (ih h1)
        | some c => simpa using Nat.succ_lt_succ (ih h1)

theorem getVibesByIds_resolved (s : VibeStore) (ids : List String)
    (h : (s.getVibesByIds ids).length = ids.length) :
    (s.getVibesByIds ids).map (fun v => v.id) = ids := by
  induction ids with
  | nil => rfl
  | cons id ids ih =>
      unfold VibeStore.getVibesByIds at h ⊢
      rw [List.filterMap_cons] at h ⊢
      cases hv : s.getVibe id with
      | none =>
          rw [hv] at h
          have hle := List.length_filterMap_le (s.getVibe) ids
          simp only [List.length_cons] at h
          omega
      | some v =>
          rw [hv] at h
          simp only [List.length_cons, Nat.succ.injEq] at h
          simp only [List.map_cons, getVibe_id s id v hv]
          exact congrArg (id :: ·) (ih h)

theorem le_listMax (l : List ℕ) : ∀ g ∈ l, g ≤ VibeProcessor.listMax l := by
  induction l with
  | nil => intro g hg; cases hg
  | cons a l ih =>
      intro g hg
      rcases List.mem_cons.mp hg with h | h
      · exact h ▸ le_max_left _ _
      · exact le_trans (ih g h) (le_max_right _ _)

theorem listMax_mem (l : List ℕ) (h : l ≠ []) : VibeProcessor.listMax l ∈ l := by
  induction l with
  | nil => exact absurd rfl h
  | cons a l ih =>
      cases l with
      | nil => simp [VibeProcessor.listMax]
      | cons b l' =>
          have hcons : VibeProcessor.listMax (a :: b :: l')
              = max a (VibeProcessor.listMax (b :: l')) := rfl
          rcases max_choice a (VibeProcessor.listMax (b :: l')) with hm | hm
          · rw [hcons, hm]; exact List.mem_cons_self _ _
          · rw [hcons, hm]
            exact List.mem_cons_of_mem _ (ih (by simp))

theorem mem_saveVibe (s : VibeStore) (v : Vibe) :
    ∀ w ∈ s.saveVibe v, w = v ∨ w ∈ s := by
  intro w hw
  unfold VibeStore.saveVibe at hw
  split at hw
  · rcases List.mem_map.mp hw with ⟨u, hu, heq⟩
    by_cases hid : u.id == v.id
    · left; rw [← heq]; simp [hid]
    · right
      have : w = u := by rw [← heq]; simp [hid]
      exact this ▸ hu
  · rcases List.mem_append.mp hw with h1 | h1
    · exact Or.inr h1
    · exact Or.inl (List.mem_singleton.mp h1)

theorem popularCount_le (limit : ℕ) :
    (⌊(limit : ℚ) * (7 / 10)⌋).toNat ≤ limit := by
  have h1 : (limit : ℚ) * (7 / 10) ≤ (limit : ℚ) := by
    nlinarith [Nat.cast_nonneg (α := ℚ) limit]
  have h2 : ⌊(limit : ℚ) * (7 / 10)⌋ ≤ ⌊(limit : ℚ)⌋ := Int.floor_le_floor h1
  rw [Int.floor_natCast] at h2
  have h3 := Int.toNat_le_toNat h2
  simpa using h3

/-! ## Claim theorems -/

/-- C1 counterexample: at `now = 100` the stored Vibe `exExpired` has
already expired (`expiresAt = 50`), yet `resonateWithVibe` does not
fail: it returns the Vibe with `resonanceScore` incremented and writes
it back, mutating the store.  `VibeStore.getVibe` never checks expiry,
so the claimed NotFound-on-expired behavior is false. -/
theorem claim_C1_counterexample :
    exExpired.expiresAt ≤ 100 ∧
    (VibeProcessor.resonateWithVibe [exExpired] "a" 100).1 =
      some { exExpired with _internal :=
        { exExpired._internal with
            resonanceScore := exExpired._internal.resonanceScore + 1,
            lastResonatedAt := 100 } } ∧
    ((VibeProcessor.resonateWithVibe [exExpired] "a" 100).2.map
      (fun v => v._internal.resonanceScore)) = [exExpired._internal.resonanceScore + 1] ∧
    exExpired._internal.resonanceScore + 1 ≠ exExpired._internal.resonanceScore :=
  ⟨by norm_num [exExpired], by rfl, by rfl, by norm_num⟩

/-- C1 (amended): `resonateWithVibe` fails with no mutation exactly
when the id has no entry in the store at all (never created, or already
physically swept); an entry that is merely expired is still resonated —
its score is incremented and it is saved back. -/
theorem claim_C1_amended (s : VibeStore) (id : String) (now : ℚ) :
    (s.getVibe id = none → VibeProcessor.resonateWithVibe s id now = (none, s)) ∧
    (∀ v : Vibe, s.getVibe id = some v →
      VibeProcessor.resonateWithVibe s id now =
        (some { v with _internal :=
          { v._internal with
              resonanceScore := v._internal.resonanceScore + 1,
              lastResonatedAt := now } },
         s.saveVibe { v with _internal :=
          { v._internal with
              resonanceScore := v._internal.resonanceScore + 1,
              lastResonatedAt := now } })) := by
  constructor
  · intro h
    unfold VibeProcessor.resonateWithVibe
    rw [h]
  · intro v h
    unfold VibeProcessor.resonateWithVibe
    rw [h]

/-- Witness for C1 (amended) at the empty store. -/
theorem claim_C1_amended_witness :
    VibeProcessor.resonateWithVibe ([] : VibeStore) "x" 0 = (none, ([] : VibeStore)) :=
  (claim_C1_amended ([] : VibeStore) "x" 0).1 rfl

/-- C2 counterexample: at `now = 100` the parent id `"a"` resolves only
to the expired Vibe `exExpired`, yet `weaveVibes` succeeds: it returns
a woven Vibe and saves it, growing the store — `getVibesByIds` never
checks expiry, so the claimed must-fail-on-expired-parent behavior is
false. -/
theorem claim_C2_counterexample :
    exExpired.expiresAt ≤ 100 ∧
    (VibeProcessor.weaveVibes [exExpired] ["a"] 100 "w" exChoices).1 =
      some (VibeProcessor.wovenVibe [exExpired] ["a"] 100 "w" exChoices) ∧
    ((VibeProcessor.weaveVibes [exExpired] ["a"] 100 "w" exChoices).2.map
      (fun v => v.id)) = ["a", "w"] :=
  ⟨by norm_num [exExpired], by rfl, by rfl⟩

/-- C2 (amended): `weaveVibes` fails, returning no Vibe and leaving the
store untouched, whenever the parent count is outside 1..3 or at least
one parent id has no entry in the store at all; an id whose entry is
merely expired still resolves and does not cause failure. -/
theorem claim_C2_amended (s : VibeStore) (ids : List String) (now : ℚ)
    (newId : String) (ch : BlendChoices) :
    (ids.length = 0 ∨ 3 < ids.length →
      VibeProcessor.weaveVibes s ids now newId ch = (none, s)) ∧
    ((∃ id ∈ ids, s.getVibe id = none) →
      VibeProcessor.weaveVibes s ids now newId ch = (none, s)) := by
  constructor
  · intro h
    unfold VibeProcessor.weaveVibes
    rw [if_pos h]
  · rintro ⟨id, hid, hnone⟩
    unfold VibeProcessor.weaveVibes
    by_cases h1 : ids.length = 0 ∨ 3 < ids.length
    · rw [if_pos h1]
    · rw [if_neg h1]
      have hlt : (s.getVibesByIds ids).length < ids.length :=
        length_filterMap_lt (s.getVibe) ids id hid hnone
      rw [if_pos (Nat.ne_of_lt hlt)]

/-- Witness for C2 (amended): weaving with one unresolved parent id on
a concrete store fails and leaves the store unchanged. -/
theorem claim_C2_amended_witness :
    VibeProcessor.weaveVibes [exVibe] ["ghost"] 0 "w" exChoices = (none, [exVibe]) :=
  (claim_C2_amended [exVibe] ["ghost"] 0 "w" exChoices).2 ⟨"ghost", by simp, by rfl⟩

/-- C3: one `decayVibeResonance` pass leaves a Vibe untouched when at
most one hour has elapsed since `lastResonatedAt`, otherwise sets the
score to `max 0 (score - score * rate * hoursElapsed)` with
`hoursElapsed = (now - lastResonatedAt) / 1 hour`; the resulting score
is never negative, and every active Vibe of the store receives exactly
this treatment. -/
theorem claim_C3 (decayRate now : ℚ) (v : Vibe) :
    ((now - v._internal.lastResonatedAt) / (1000 * 60 * 60) ≤ 1 →
      VibeProcessor.decayVibe decayRate now v = v) ∧
    (1 < (now - v._internal.lastResonatedAt) / (1000 * 60 * 60) →
      (VibeProcessor.decayVibe decayRate now v)._internal.resonanceScore =
        max 0 (v._internal.resonanceScore - v._internal.resonanceScore * decayRate *
          ((now - v._internal.lastResonatedAt) / (1000 * 60 * 60)))) ∧
    (0 ≤ v._internal.resonanceScore →
      0 ≤ (VibeProcessor.decayVibe decayRate now v)._internal.resonanceScore) ∧
    (∀ s : VibeStore, v ∈ s → now < v.expiresAt →
      VibeProcessor.decayVibe decayRate now v ∈
        VibeProcessor.decayVibeResonance s decayRate now) := by
  refine ⟨?_, ?_, ?_, ?_⟩
  · intro hle
    unfold VibeProcessor.decayVibe
    rw [if_neg (by simpa using not_lt.mpr hle)]
  · intro hgt
    unfold VibeProcessor.decayVibe
    rw [if_pos (by simpa using hgt)]
  · intro h0
    unfold VibeProcessor.decayVibe
    split
    · exact le_max_left 0 _
    · exact h0
  · intro s hv hact
    unfold VibeProcessor.decayVibeResonance
    have := List.mem_map_of_mem
      (fun vibe => if now < vibe.expiresAt then VibeProcessor.decayVibe decayRate now vibe
        else vibe) hv
    simpa [if_pos hact] using this

/-- Witness for C3 at `exVibe` (score 3, last resonated at time 0) two
hours later with rate 1: the score becomes `max 0 (3 - 3 * 1 * 2) = 0`,
matching the scenario of the spec, and is non-negative. -/
theorem claim_C3_witness :
    (VibeProcessor.decayVibe 1 7200000 exVibe)._internal.resonanceScore =
      max 0 (exVibe._internal.resonanceScore - exVibe._internal.resonanceScore * 1 *
        ((7200000 - exVibe._internal.lastResonatedAt) / (1000 * 60 * 60))) ∧
    0 ≤ (VibeProcessor.decayVibe 1 7200000 exVibe)._internal.resonanceScore :=
  ⟨(claim_C3 1 7200000 exVibe).2.1 (by norm_num [exVibe]),
   (claim_C3 1 7200000 exVibe).2.2.1 (by norm_num [exVibe])⟩

/-- C10: one decay invocation touches nothing but `resonanceScore` —
id, timestamps, `lastResonatedAt`, lineage and all sensory payloads are
unchanged — and because `lastResonatedAt` is not refreshed, a second
invocation at the same instant recomputes the same `hoursElapsed` from
the original `lastResonatedAt` and applies the reduction again to the
already-reduced score. -/
theorem claim_C10 (decayRate now : ℚ) (v : Vibe) :
    (VibeProcessor.decayVibe decayRate now v).id = v.id ∧
    (VibeProcessor.decayVibe decayRate now v).createdAt = v.createdAt ∧
    (VibeProcessor.decayVibe decayRate now v).expiresAt = v.expiresAt ∧
    (VibeProcessor.decayVibe decayRate now v).visual = v.visual ∧
    (VibeProcessor.decayVibe decayRate now v).audio = v.audio ∧
    (VibeProcessor.decayVibe decayRate now v).haptic = v.haptic ∧
    (VibeProcessor.decayVibe decayRate now v).text = v.text ∧
    (VibeProcessor.decayVibe decayRate now v)._internal.parentVibeIds =
      v._internal.parentVibeIds ∧
    (VibeProcessor.decayVibe decayRate now v)._internal.generation =
      v._internal.generation ∧
    (VibeProcessor.decayVibe decayRate now v)._internal.lastResonatedAt =
      v._internal.lastResonatedAt ∧
    (1 < (now - v._internal.lastResonatedAt) / (1000 * 60 * 60) →
      (VibeProcessor.decayVibe decayRate now
        (VibeProcessor.decayVibe decayRate now v))._internal.resonanceScore =
        max 0 ((VibeProcessor.decayVibe decayRate now v)._internal.resonanceScore -
          (VibeProcessor.decayVibe decayRate now v)._internal.resonanceScore * decayRate *
          ((now - v._internal.lastResonatedAt) / (1000 * 60 * 60)))) := by
  have hframe : ∀ w : Vibe,
      (VibeProcessor.decayVibe decayRate now w).id = w.id ∧
      (VibeProcessor.decayVibe decayRate now w).createdAt = w.createdAt ∧
      (VibeProcessor.decayVibe decayRate now w).expiresAt = w.expiresAt ∧
      (VibeProcessor.decayVibe decayRate now w).visual = w.visual ∧
      (VibeProcessor.decayVibe decayRate now w).audio = w.audio ∧
      (VibeProcessor.decayVibe decayRate now w).haptic = w.haptic ∧
      (VibeProcessor.decayVibe decayRate now w).text = w.text ∧
      (VibeProcessor.decayVibe decayRate now w)._internal.parentVibeIds =
        w._internal.parentVibeIds ∧
      (VibeProcessor.decayVibe decayRate now w)._internal.generation =
        w._internal.generation ∧
      (VibeProcessor.decayVibe decayRate now w)._internal.lastResonatedAt =
        w._internal.lastResonatedAt := by
    intro w
    unfold VibeProcessor.decayVibe
    split <;> simp
  obtain ⟨h1, h2, h3, h4, h5, h6, h7, h8, h9, h10⟩ := hframe v
  refine ⟨h1, h2, h3, h4, h5, h6, h7, h8, h9, h10, ?_⟩
  intro hgt
  have hlast := (hframe v).2.2.2.2.2.2.2.2.2
  conv_lhs => rw [VibeProcessor.decayVibe]
  rw [hlast, if_pos (by simpa using hgt)]

/-- Witness for C10 at `exVibe` two hours after `lastResonatedAt` with
rate `1/10`: the double application compounds on the once-decayed
score. -/
theorem claim_C10_witness :
    (VibeProcessor.decayVibe (1 / 10) 7200000
      (VibeProcessor.decayVibe (1 / 10) 7200000 exVibe))._internal.resonanceScore =
      max 0 ((VibeProcessor.decayVibe (1 / 10) 7200000 exVibe)._internal.resonanceScore -
        (VibeProcessor.decayVibe (1 / 10) 7200000 exVibe)._internal.resonanceScore * (1 / 10) *
        ((7200000 - exVibe._internal.lastResonatedAt) / (1000 * 60 * 60))) :=
  (claim_C10 (1 / 10) 7200000 exVibe).2.2.2.2.2.2.2.2.2.2 (by norm_num [exVibe])

/-- C7: the exposed lookup `handleGetVibe` answers 404 (modelled as
`none`) for any id whose stored Vibe has `expiresAt <= now`, never
returning the Vibe, even before the periodic sweep has physically
removed it. -/
theorem claim_C7 (s : VibeStore) (vibeId : String) (now : ℚ) (v : Vibe)
    (hv : s.getVibe vibeId = some v) (he : v.expiresAt ≤ now) :
    handleGetVibe s vibeId now = none := by
  unfold handleGetVibe
  by_cases hid : vibeId = ""
  · rw [if_pos hid]
  · rw [if_neg hid, hv]
    simp [if_pos he]

/-- Witness for C7: looking up the expired-but-unswept `exExpired` at
`now = 100` fails. -/
theorem claim_C7_witness : handleGetVibe [exExpired] "a" 100 = none :=
  claim_C7 [exExpired] "a" 100 exExpired (by rfl) (by norm_num [exExpired])

/-- C4: for every store state and limit, the collective stream is the
id-image of the first `limit` entries of the active Vibes sorted by
`resonanceScore` descending: it has exactly `min limit (active count)`
entries, the underlying Vibe list is sorted descending, and every
returned id belongs to a stored Vibe with `expiresAt > now`. -/
theorem claim_C4 (s : VibeStore) (now : ℚ) (associatedId : String)
    (limit : ℕ) (shuffle : List Vibe → List Vibe) :
    (VibeProcessor.getStreamVibes s now VibeProcessor.StreamType.collective
        associatedId limit shuffle).length = min limit (s.getAllActiveVibes now).length ∧
    List.Sorted VibeProcessor.scoreGe
      ((List.insertionSort VibeProcessor.scoreGe (s.getAllActiveVibes now)).take limit) ∧
    VibeProcessor.getStreamVibes s now VibeProcessor.StreamType.collective
        associatedId limit shuffle =
      ((List.insertionSort VibeProcessor.scoreGe (s.getAllActiveVibes now)).take limit).map
        (fun v => v.id) ∧
    (∀ id ∈ VibeProcessor.getStreamVibes s now VibeProcessor.StreamType.collective
        associatedId limit shuffle,
      ∃ v : Vibe, v ∈ s ∧ now < v.expiresAt ∧ v.id = id) := by
  refine ⟨?_, ?_, rfl, ?_⟩
  · show (((List.insertionSort VibeProcessor.scoreGe (s.getAllActiveVibes now)).take
        limit).map (fun v => v.id)).length = _
    rw [List.length_map, List.length_take,
      (List.perm_insertionSort VibeProcessor.scoreGe (s.getAllActiveVibes now)).length_eq]
  · exact (List.sorted_insertionSort VibeProcessor.scoreGe
      (s.getAllActiveVibes now)).sublist (List.take_sublist limit _)
  · intro id hid
    rcases List.mem_map.mp hid with ⟨v, hv, rfl⟩
    have hv1 : v ∈ List.insertionSort VibeProcessor.scoreGe (s.getAllActiveVibes now) :=
      List.take_subset limit _ hv
    have hv2 : v ∈ s.getAllActiveVibes now :=
      (List.perm_insertionSort VibeProcessor.scoreGe (s.getAllActiveVibes now)).subset hv1
    have hv3 := List.mem_filter.mp hv2
    exact ⟨v, hv3.1, by simpa using hv3.2, rfl⟩

/-- Witness for C4 at a one-Vibe store: the single active Vibe is
returned and its membership fact holds. -/
theorem claim_C4_witness :
    ∃ v : Vibe, v ∈ ([exVibe] : VibeStore) ∧ (100 : ℚ) < v.expiresAt ∧ v.id = "a" :=
  (claim_C4 [exVibe] 100 "global" 5 (fun l => l)).2.2.2 "a" (by
    have h : VibeProcessor.getStreamVibes [exVibe] 100
        VibeProcessor.StreamType.collective "global" 5 (fun l => l) = ["a"] := by
      with_unfolding_all rfl
    rw [h]
    exact List.mem_singleton.mpr rfl)

/-- Unfolding of the personal branch of `getStreamVibes`: popular
prefix of the descending sort, then the shuffled remainder, truncated,
mapped to ids and deduplicated. -/
theorem getStreamVibes_personal_eq (s : VibeStore) (now : ℚ) (associatedId : String)
    (limit : ℕ) (shuffle : List Vibe → List Vibe) :
    VibeProcessor.getStreamVibes s now VibeProcessor.StreamType.personal
        associatedId limit shuffle =
      jsSetDedup
        (((((List.insertionSort VibeProcessor.scoreGe (s.getAllActiveVibes now)).take
            (⌊(limit : ℚ) * (7 / 10)⌋).toNat) ++
          ((shuffle ((List.insertionSort VibeProcessor.scoreGe
              (s.getAllActiveVibes now)).filter
            (fun v => !(((List.insertionSort VibeProcessor.scoreGe
                (s.getAllActiveVibes now)).take
              (⌊(limit : ℚ) * (7 / 10)⌋).toNat).contains v)))).take
            (limit - ((List.insertionSort VibeProcessor.scoreGe
                (s.getAllActiveVibes now)).take
              (⌊(limit : ℚ) * (7 / 10)⌋).toNat).length))).map (fun v => v.id))) := rfl

/-- C8: for every store state and limit, the personal stream has at
most `limit` entries, contains no duplicate ids, consists only of ids
of stored Vibes with `expiresAt > now`, and its popular component —
the first `floor(limit * 0.7)` Vibes of the descending sort — is
sorted by `resonanceScore` descending.  The discovery shuffle is any
permutation-producing function. -/
theorem claim_C8 (s : VibeStore) (now : ℚ) (associatedId : String) (limit : ℕ)
    (shuffle : List Vibe → List Vibe)
    (hsh : ∀ l : List Vibe, List.Perm (shuffle l) l) :
    (VibeProcessor.getStreamVibes s now VibeProcessor.StreamType.personal
        associatedId limit shuffle).length ≤ limit ∧
    (VibeProcessor.getStreamVibes s now VibeProcessor.StreamType.personal
        associatedId limit shuffle).Nodup ∧
    (∀ id ∈ VibeProcessor.getStreamVibes s now VibeProcessor.StreamType.personal
        associatedId limit shuffle,
      ∃ v : Vibe, v ∈ s ∧ now < v.expiresAt ∧ v.id = id) ∧
    List.Sorted VibeProcessor.scoreGe
      ((List.insertionSort VibeProcessor.scoreGe (s.getAllActiveVibes now)).take
        (⌊(limit : ℚ) * (7 / 10)⌋).toNat) := by
  refine ⟨?_, ?_, ?_,
    (List.sorted_insertionSort VibeProcessor.scoreGe
      (s.getAllActiveVibes now)).sublist (List.take_sublist _ _)⟩
  · rw [getStreamVibes_personal_eq]
    refine le_trans (jsSetDedup_length_le _) ?_
    rw [List.length_map, List.length_append]
    have hp : (⌊(limit : ℚ) * (7 / 10)⌋).toNat ≤ limit := popularCount_le limit
    have h1 : ((List.insertionSort VibeProcessor.scoreGe
        (s.getAllActiveVibes now)).take (⌊(limit : ℚ) * (7 / 10)⌋).toNat).length ≤
        (⌊(limit : ℚ) * (7 / 10)⌋).toNat :=
      List.length_take_le _ _
    have h2 : ((shuffle ((List.insertionSort VibeProcessor.scoreGe
          (s.getAllActiveVibes now)).filter
        (fun v => !(((List.insertionSort VibeProcessor.scoreGe
            (s.getAllActiveVibes now)).take
          (⌊(limit : ℚ) * (7 / 10)⌋).toNat).contains v)))).take
        (limit - ((List.insertionSort VibeProcessor.scoreGe
            (s.getAllActiveVibes now)).take
          (⌊(limit : ℚ) * (7 / 10)⌋).toNat).length)).length ≤
        limit - ((List.insertionSort VibeProcessor.scoreGe
            (s.getAllActiveVibes now)).take
          (⌊(limit : ℚ) * (7 / 10)⌋).toNat).length :=
      List.length_take_le _ _
    omega
  · rw [getStreamVibes_personal_eq]
    exact jsSetDedup_nodup _
  · intro id hid
    rw [getStreamVibes_personal_eq] at hid
    have hid2 := jsSetDedup_subset _ _ hid
    rcases List.mem_map.mp hid2 with ⟨v, hv, rfl⟩
    have hvsorted : v ∈ List.insertionSort VibeProcessor.scoreGe (s.getAllActiveVibes now) := by
      rcases List.mem_append.mp hv with h | h
      · exact List.take_subset _ _ h
      · have h3 := (hsh _).subset (List.take_subset _ _ h)
        exact List.mem_of_mem_filter h3
    have hvact : v ∈ s.getAllActiveVibes now :=
      (List.perm_insertionSort VibeProcessor.scoreGe (s.getAllActiveVibes now)).subset hvsorted
    have hv3 := List.mem_filter.mp hvact
    exact ⟨v, hv3.1, by simpa using hv3.2, rfl⟩

/-- Witness for C8 at a one-Vibe store with the identity shuffle. -/
theorem claim_C8_witness :
    (VibeProcessor.getStreamVibes [exVibe] 100 VibeProcessor.StreamType.personal
        "user-123" 5 (fun l => l)).length ≤ 5 ∧
    (VibeProcessor.getStreamVibes [exVibe] 100 VibeProcessor.StreamType.personal
        "user-123" 5 (fun l => l)).Nodup :=
  ⟨(claim_C8 [exVibe] 100 "user-123" 5 (fun l => l) (fun l => List.Perm.refl l)).1,
   (claim_C8 [exVibe] 100 "user-123" 5 (fun l => l) (fun l => List.Perm.refl l)).2.1⟩

/-- Inversion of a successful weave: both guards passed, the result is
the assembled `wovenVibe` and the store is the save of it. -/
theorem weave_success (s : VibeStore) (ids : List String) (now : ℚ)
    (newId : String) (ch : BlendChoices) (v : Vibe) (s' : VibeStore)
    (h : VibeProcessor.weaveVibes s ids now newId ch = (some v, s')) :
    ¬(ids.length = 0 ∨ 3 < ids.length) ∧
    (s.getVibesByIds ids).length = ids.length ∧
    v = VibeProcessor.wovenVibe s ids now newId ch ∧
    s' = s.saveVibe (VibeProcessor.wovenVibe s ids now newId ch) := by
  unfold VibeProcessor.weaveVibes at h
  by_cases h1 : ids.length = 0 ∨ 3 < ids.length
  · rw [if_pos h1] at h
    simp at h
  · rw [if_neg h1] at h
    by_cases h2 : (s.getVibesByIds ids).length ≠ ids.length
    · rw [if_pos h2] at h
      simp at h
    · rw [if_neg h2] at h
      rw [Prod.mk.injEq] at h
      exact ⟨h1, not_ne_iff.mp h2, (Option.some.inj h.1).symm, h.2.symm⟩

/-- C9: every Vibe produced by a successful weave carries exactly the
caller-supplied parent ids in the order given, starts with
`resonanceScore = 0`, and expires exactly 48 hours after its
creation timestamp. -/
theorem claim_C9 (s : VibeStore) (ids : List String) (now : ℚ)
    (newId : String) (ch : BlendChoices) (v : Vibe) (s' : VibeStore)
    (h : VibeProcessor.weaveVibes s ids now newId ch = (some v, s')) :
    v._internal.parentVibeIds = ids ∧
    v._internal.resonanceScore = 0 ∧
    v.createdAt = now ∧
    v.expiresAt = v.createdAt + 48 * 60 * 60 * 1000 := by
  obtain ⟨-, hlen, rfl, -⟩ := weave_success s ids now newId ch v s' h
  refine ⟨?_, rfl, rfl, rfl⟩
  show (s.getVibesByIds ids).map (fun p => p.id) = ids
  exact getVibesByIds_resolved s ids hlen

/-- Witness for C9: the concrete weave of `exBlack1` and `exBlack2`. -/
theorem claim_C9_witness :
    (VibeProcessor.wovenVibe [exBlack1, exBlack2] ["b1", "b2"] 100 "w"
        exChoices)._internal.parentVibeIds = ["b1", "b2"] ∧
    (VibeProcessor.wovenVibe [exBlack1, exBlack2] ["b1", "b2"] 100 "w"
        exChoices)._internal.resonanceScore = 0 ∧
    (VibeProcessor.wovenVibe [exBlack1, exBlack2] ["b1", "b2"] 100 "w"
        exChoices).createdAt = 100 ∧
    (VibeProcessor.wovenVibe [exBlack1, exBlack2] ["b1", "b2"] 100 "w"
        exChoices).expiresAt =
      (VibeProcessor.wovenVibe [exBlack1, exBlack2] ["b1", "b2"] 100 "w"
        exChoices).createdAt + 48 * 60 * 60 * 1000 :=
  claim_C9 [exBlack1, exBlack2] ["b1", "b2"] 100 "w" exChoices _ _ (by rfl)

/-- C5 counterexample: weaving the two all-black parents succeeds, but
the woven palette is `["#000000"]` — length 1, not the claimed 3.  The
pooled colors are never deduplicated before blending; the single final
deduplication collapses the average and both interpolations into one
entry. -/
theorem claim_C5_counterexample :
    ((VibeProcessor.weaveVibes [exBlack1, exBlack2] ["b1", "b2"] 100 "w" exChoices).1.map
      (fun v => v.visual.palette)) = some ["#000000"] ∧
    ((VibeProcessor.weaveVibes [exBlack1, exBlack2] ["b1", "b2"] 100 "w" exChoices).1.map
      (fun v => v.visual.palette.length)) = some 1 :=
  ⟨by with_unfolding_all rfl, by with_unfolding_all rfl⟩

/-- Shape of the dedup-then-truncate palette assembly: distinct
entries, at most `n` of them, and at least one when `n ≥ 1`. -/
theorem dedup_take_shape {α : Type} [DecidableEq α] (x : α) (l : List α) (n : ℕ) :
    ((jsSetDedup (x :: l)).take n).Nodup ∧
    ((jsSetDedup (x :: l)).take n).length ≤ n ∧
    (1 ≤ n → 1 ≤ ((jsSetDedup (x :: l)).take n).length) := by
  refine ⟨(jsSetDedup_nodup _).sublist (List.take_sublist _ _), List.length_take_le _ _, ?_⟩
  intro hn
  have hlen : 1 ≤ (jsSetDedup (x :: l)).length := by
    rw [jsSetDedup]
    simp
  rw [List.length_take]
  omega

/-- Palette shape produced by `blendHexPalettes` with 3 requested
colors: the output is always duplicate-free, has at most 3 entries,
and — whenever the pool is non-empty and holds at least one parseable
hex color — at least one entry. -/
theorem blendHexPalettes_shape (hexColors : List String) (picks : ℕ → InterpPick) :
    (blendHexPalettes hexColors 3 picks).Nodup ∧
    (blendHexPalettes hexColors 3 picks).length ≤ 3 ∧
    (hexColors ≠ [] → (∃ c ∈ hexColors, hexToRgb c ≠ none) →
      1 ≤ (blendHexPalettes hexColors 3 picks).length) := by
  unfold blendHexPalettes
  split
  case isTrue h0 =>
    refine ⟨List.nodup_nil, by simp, ?_⟩
    intro hne _
    exact absurd (List.length_eq_zero.mp h0) hne
  case isFalse h0 =>
    split
    case isTrue h1 =>
      exact ⟨List.nodup_singleton _, by simp, fun _ _ => by simp⟩
    case isFalse h1 =>
      split
      case isTrue h2 =>
        refine ⟨List.nodup_nil, by simp, ?_⟩
        intro _ hex
        rcases hex with ⟨c, hc, hv⟩
        cases hy : hexToRgb c with
        | none => exact absurd hy hv
        | some y =>
            have : y ∈ hexColors.filterMap hexToRgb :=
              List.mem_filterMap.mpr ⟨c, hc, hy⟩
            rw [List.length_eq_zero.mp h2] at this
            cases this
      case isFalse h2 =>
        exact ⟨(dedup_take_shape _ _ 3).1, (dedup_take_shape _ _ 3).2.1,
          fun _ _ => (dedup_take_shape _ _ 3).2.2 (by omega)⟩

/-- C5 (amended): the palette of every successfully woven Vibe is
`blendHexPalettes` applied to the **undeduplicated** pooled parent
colors; the final palette is deduplicated once at the end, so its
entries are pairwise distinct and number between 1 and 3 (not always
exactly 3): the average color and the two random interpolations can
collide after deduplication. -/
theorem claim_C5_amended (s : VibeStore) (ids : List String) (now : ℚ)
    (newId : String) (ch : BlendChoices) (v : Vibe) (s' : VibeStore)
    (h : VibeProcessor.weaveVibes s ids now newId ch = (some v, s')) :
    v.visual.palette =
      blendHexPalettes
        (((s.getVibesByIds ids).map (fun p => p.visual)).flatMap (fun x => x.palette)) 3
        ch.palettePicks ∧
    v.visual.palette.Nodup ∧
    v.visual.palette.length ≤ 3 ∧
    ((((s.getVibesByIds ids).map (fun p => p.visual)).flatMap (fun x => x.palette)) ≠ [] →
      (∃ c ∈ ((s.getVibesByIds ids).map (fun p => p.visual)).flatMap (fun x => x.palette),
        hexToRgb c ≠ none) →
      1 ≤ v.visual.palette.length) := by
  obtain ⟨-, -, rfl, -⟩ := weave_success s ids now newId ch v s' h
  have hpal : (VibeProcessor.wovenVibe s ids now newId ch).visual.palette =
      blendHexPalettes
        (((s.getVibesByIds ids).map (fun p => p.visual)).flatMap (fun x => x.palette)) 3
        ch.palettePicks := rfl
  rw [hpal]
  exact ⟨rfl, blendHexPalettes_shape _ _⟩

/-- Witness for C5 (amended) at the concrete all-black weave: its
palette is duplicate-free, at most 3 long, and non-empty. -/
theorem claim_C5_amended_witness :
    (VibeProcessor.wovenVibe [exBlack1, exBlack2] ["b1", "b2"] 100 "w"
        exChoices).visual.palette.Nodup ∧
    1 ≤ (VibeProcessor.wovenVibe [exBlack1, exBlack2] ["b1", "b2"] 100 "w"
        exChoices).visual.palette.length :=
  ⟨(claim_C5_amended [exBlack1, exBlack2] ["b1", "b2"] 100 "w" exChoices _ _ (by rfl)).2.1,
   (claim_C5_amended [exBlack1, exBlack2] ["b1", "b2"] 100 "w" exChoices _ _ (by rfl)).2.2.2
     (by with_unfolding_all decide)
     ⟨"#000000", by with_unfolding_all decide, by with_unfolding_all decide⟩⟩

/-- The root/woven lineage invariant of the data model:
`parentVibeIds` empty exactly for generation-0 Vibes, and woven Vibes
carry 1 to 3 parent ids. -/
def rootWovenInv (v : Vibe) : Prop :=
  (v._internal.parentVibeIds = [] ↔ v._internal.generation = 0) ∧
  (v._internal.parentVibeIds ≠ [] →
    1 ≤ v._internal.parentVibeIds.length ∧ v._internal.parentVibeIds.length ≤ 3)

/-- One mutation of the store by any operation of the system: create,
weave, resonate, the decay sweep, the expiry sweep, a single delete, or
the test-reset `clear`. -/
inductive Step : VibeStore → VibeStore → Prop
  | create (s : VibeStore) (now : ℚ) (newId : String) (vis : VisualPayload)
      (aud : AudioPayload) (hap : Option HapticPayload) (txt : Option TextPayload) :
      Step s (VibeProcessor.createNewVibe s now newId vis aud hap txt).2
  | weave (s : VibeStore) (ids : List String) (now : ℚ) (newId : String)
      (ch : BlendChoices) :
      Step s (VibeProcessor.weaveVibes s ids now newId ch).2
  | resonate (s : VibeStore) (id : String) (now : ℚ) :
      Step s (VibeProcessor.resonateWithVibe s id now).2
  | decay (s : VibeStore) (rate now : ℚ) :
      Step s (VibeProcessor.decayVibeResonance s rate now)
  | sweep (s : VibeStore) (now : ℚ) : Step s (s.deleteExpiredVibes now)
  | deleteOne (s : VibeStore) (id : String) : Step s (s.deleteVibe id)
  | reset (s : VibeStore) : Step s (s.clear)

/-- Store states reachable from the empty store through the system's
operations. -/
inductive Reachable : VibeStore → Prop
  | empty : Reachable ([] : VibeStore)
  | step (s s' : VibeStore) : Reachable s → Step s s' → Reachable s'

theorem rootWovenInv_create (s : VibeStore) (now : ℚ) (newId : String)
    (vis : VisualPayload) (aud : AudioPayload) (hap : Option HapticPayload)
    (txt : Option TextPayload) :
    rootWovenInv (VibeProcessor.createNewVibe s now newId vis aud hap txt).1 := by
  simp [rootWovenInv, VibeProcessor.createNewVibe]

theorem rootWovenInv_woven (s : VibeStore) (ids : List String) (now : ℚ)
    (newId : String) (ch : BlendChoices)
    (h1 : ¬(ids.length = 0 ∨ 3 < ids.length))
    (h2 : (s.getVibesByIds ids).length = ids.length) :
    rootWovenInv (VibeProcessor.wovenVibe s ids now newId ch) := by
  push_neg at h1
  have hlen : (VibeProcessor.wovenVibe s ids now newId ch)._internal.parentVibeIds.length
      = ids.length := by
    show ((s.getVibesByIds ids).map (fun v => v.id)).length = ids.length
    rw [List.length_map, h2]
  constructor
  · constructor
    · intro hemp
      exfalso
      apply h1.1
      rw [← hlen, hemp]
      rfl
    · intro hgen
      exfalso
      exact Nat.succ_ne_zero _ hgen
  · intro _
    omega

theorem step_inv (s s' : VibeStore) (hstep : Step s s')
    (hinv : ∀ v ∈ s, rootWovenInv v) : ∀ v ∈ s', rootWovenInv v := by
  cases hstep with
  | create now newId vis aud hap txt =>
      intro v hv
      rcases mem_saveVibe s (VibeProcessor.createNewVibe s now newId vis aud hap txt).1 v hv
        with rfl | hvs
      · exact rootWovenInv_create s now newId vis aud hap txt
      · exact hinv v hvs
  | weave ids now newId ch =>
      intro v hv
      by_cases h1 : ids.length = 0 ∨ 3 < ids.length
      · have hs : (VibeProcessor.weaveVibes s ids now newId ch).2 = s := by
          unfold VibeProcessor.weaveVibes
          rw [if_pos h1]
        rw [hs] at hv
        exact hinv v hv
      · by_cases h2 : (s.getVibesByIds ids).length ≠ ids.length
        · have hs : (VibeProcessor.weaveVibes s ids now newId ch).2 = s := by
            unfold VibeProcessor.weaveVibes
            rw [if_neg h1, if_pos h2]
          rw [hs] at hv
          exact hinv v hv
        · have hs : (VibeProcessor.weaveVibes s ids now newId ch).2 =
              s.saveVibe (VibeProcessor.wovenVibe s ids now newId ch) := by
            unfold VibeProcessor.weaveVibes
            rw [if_neg h1, if_neg h2]
          rw [hs] at hv
          rcases mem_saveVibe s (VibeProcessor.wovenVibe s ids now newId ch) v hv
            with rfl | hvs
          · exact rootWovenInv_woven s ids now newId ch h1 (not_ne_iff.mp h2)
          · exact hinv v hvs
  | resonate id now =>
      intro v hv
      cases hg : s.getVibe id with
      | none =>
          have hs : (VibeProcessor.resonateWithVibe s id now).2 = s := by
            unfold VibeProcessor.resonateWithVibe
            rw [hg]
          rw [hs] at hv
          exact hinv v hv
      | some v0 =>
          have hs : (VibeProcessor.resonateWithVibe s id now).2 =
              s.saveVibe { v0 with _internal :=
                { v0._internal with
                    resonanceScore := v0._internal.resonanceScore + 1,
                    lastResonatedAt := now } } := by
            unfold VibeProcessor.resonateWithVibe
            rw [hg]
          rw [hs] at hv
          rcases mem_saveVibe s _ v hv with rfl | hvs
          · have h0 := hinv v0 (getVibe_mem s id v0 hg)
            simp only [rootWovenInv] at h0 ⊢
            exact h0
          · exact hinv v hvs
  | decay rate now =>
      intro v hv
      unfold VibeProcessor.decayVibeResonance at hv
      rcases List.mem_map.mp hv with ⟨u, hu, rfl⟩
      have h0 := hinv u hu
      by_cases hact : now < u.expiresAt
      · rw [if_pos hact]
        unfold VibeProcessor.decayVibe
        split
        · simp only [rootWovenInv] at h0 ⊢
          exact h0
        · exact h0
      · rw [if_neg hact]
        exact h0
  | sweep now =>
      intro v hv
      exact hinv v (List.mem_of_mem_filter hv)
  | deleteOne id =>
      intro v hv
      exact hinv v (List.mem_of_mem_filter hv)
  | reset =>
      intro v hv
      simp [VibeStore.clear] at hv

theorem reachable_inv (s : VibeStore) (h : Reachable s) :
    ∀ v ∈ s, rootWovenInv v := by
  induction h with
  | empty => intro v hv; cases hv
  | step s s' hr hstep ih => exact step_inv s s' hstep ih

/-- C6: every created root Vibe has generation 0 and no parents; every
successfully woven Vibe has 1 to 3 parent ids and generation one more
than the maximum of the resolved parent generations; and the invariant
"`parentVibeIds` empty iff `generation = 0`, else 1–3 parents" holds
for every Vibe in every store state reachable through the system's
operations. -/
theorem claim_C6 :
    (∀ (s : VibeStore) (now : ℚ) (newId : String) (vis : VisualPayload)
        (aud : AudioPayload) (hap : Option HapticPayload) (txt : Option TextPayload),
      (VibeProcessor.createNewVibe s now newId vis aud hap txt).1._internal.generation = 0 ∧
      (VibeProcessor.createNewVibe s now newId vis aud hap
        txt).1._internal.parentVibeIds = []) ∧
    (∀ (s : VibeStore) (ids : List String) (now : ℚ) (newId : String)
        (ch : BlendChoices) (v : Vibe) (s' : VibeStore),
      VibeProcessor.weaveVibes s ids now newId ch = (some v, s') →
      (1 ≤ v._internal.parentVibeIds.length ∧ v._internal.parentVibeIds.length ≤ 3) ∧
      ∃ m : ℕ, v._internal.generation = 1 + m ∧
        (∀ g ∈ (s.getVibesByIds ids).map (fun p => p._internal.generation), g ≤ m) ∧
        m ∈ (s.getVibesByIds ids).map (fun p => p._internal.generation)) ∧
    (∀ s : VibeStore, Reachable s → ∀ v ∈ s, rootWovenInv v) := by
  refine ⟨?_, ?_, reachable_inv⟩
  · intro s now newId vis aud hap txt
    exact ⟨rfl, rfl⟩
  · intro s ids now newId ch v s' h
    obtain ⟨h1, h2, rfl, -⟩ := weave_success s ids now newId ch v s' h
    push_neg at h1
    have hlen : (VibeProcessor.wovenVibe s ids now newId ch)._internal.parentVibeIds.length
        = ids.length := by
      show ((s.getVibesByIds ids).map (fun w => w.id)).length = ids.length
      rw [List.length_map, h2]
    refine ⟨⟨by omega, by omega⟩,
      VibeProcessor.listMax ((s.getVibesByIds ids).map (fun p => p._internal.generation)),
      ?_, le_listMax _, ?_⟩
    · show VibeProcessor.listMax _ + 1 = 1 + VibeProcessor.listMax _
      omega
    · apply listMax_mem
      intro hemp
      have hlen2 : ((s.getVibesByIds ids).map
          (fun p => p._internal.generation)).length = ids.length := by
        rw [List.length_map, h2]
      rw [hemp] at hlen2
      simp at hlen2
      omega

/-- Witness for C6: a concrete created root Vibe satisfies the
invariant in its (reachable) one-element store, and the concrete weave
of the two black parents has between 1 and 3 parent ids. -/
theorem claim_C6_witness :
    (VibeProcessor.createNewVibe ([] : VibeStore) 0 "a" exVisual exAudio none
      none).1._internal.generation = 0 ∧
    1 ≤ (VibeProcessor.wovenVibe [exBlack1, exBlack2] ["b1", "b2"] 100 "w"
      exChoices)._internal.parentVibeIds.length ∧
    rootWovenInv
      (VibeProcessor.createNewVibe ([] : VibeStore) 0 "a" exVisual exAudio none none).1 :=
  ⟨(claim_C6.1 ([] : VibeStore) 0 "a" exVisual exAudio none none).1,
   ((claim_C6.2.1 [exBlack1, exBlack2] ["b1", "b2"] 100 "w" exChoices _ _ (by rfl)).1).1,
   claim_C6.2.2 _
     (Reachable.step _ _ Reachable.empty
       (Step.create ([] : VibeStore) 0 "a" exVisual exAudio none none))
     _ (List.mem_singleton.mpr rfl)⟩
